import Mathlib

/-!
# Verification of the PyBullet client (`PyBullet/base.py`)

A shallow embedding of the PushBullet client in `PyBullet/base.py`.

Python values that flow through the client (JSON-decoded settings and
responses, request payloads) are embedded as the inductive type `Val`;
Python dictionaries are association lists whose lookup finds the first
matching key (Python dicts have unique keys, so this is faithful), and
`dict.update` is embedded as a left fold of in-place key replacement,
matching CPython semantics: an existing key keeps its position and is
re-bound, a new key is appended.

The network boundary is the `send_request` method of the authenticator
object (the `pybullet.auth` module).  Client methods are embedded as
functions over an abstract oracle `Oracle : Request → Except Err Val`;
each method returns the list of requests it actually handed to
`send_request` (its outbound trace, including a final failing attempt)
together with its result.  A `Request` records exactly the arguments the
client passed: fields the call site omitted are `none` (per the auth
interface an omitted `skip_auth` means the request is authenticated).

Exceptions (`raise Exception(...)`, `KeyError`, `TypeError`,
`RequestError`) are embedded as `Except Err`.
-/

/-- Embedded Python/JSON values. -/
inductive Val where
  | str : String → Val
  | int : Int → Val
  | dict : List (String × Val) → Val
  | list : List Val → Val
  | tuple : List Val → Val
  | pyNone : Val

/-- A Python dictionary with string keys. -/
abbrev Dict := List (String × Val)

/-- Embedded exceptions. -/
inductive Err where
  /-- `raise Exception(msg)` -/
  | exception : String → Err
  /-- `KeyError` on a missing dictionary key -/
  | keyError : String → Err
  /-- `TypeError` on subscripting a non-dictionary -/
  | typeError : Err
  /-- A failure of the underlying HTTP request (e.g. `RequestError`). -/
  | requestError : Nat → Err
deriving DecidableEq

/-- Dictionary lookup (Python dicts have unique keys; first match). -/
def dlookup : Dict → String → Option Val
  | [], _ => none
  | (k', v') :: rest, k => if k' = k then some v' else dlookup rest k

/-- `d[k] = v` on a Python dict: re-bind an existing key in place,
append a new one. -/
def setKey : Dict → String → Val → Dict
  | [], k, v => [(k, v)]
  | (k', v') :: rest, k, v =>
      if k' = k then (k, v) :: rest else (k', v') :: setKey rest k v

/-- `base.update(ovr)` on Python dicts: fold every override binding into
the base, right-biased and shallow. -/
def updateDict (base ovr : Dict) : Dict :=
  ovr.foldl (fun acc kv => setKey acc kv.1 kv.2) base

/-- Python subscript `v[k]`: `KeyError` when the key is missing,
`TypeError` when `v` is not a dictionary. -/
def getItem : Val → String → Except Err Val
  | Val.dict d, k =>
      match dlookup d k with
      | some v => Except.ok v
      | none => Except.error (Err.keyError k)
  | _, _ => Except.error Err.typeError

/-- An open file object.  `openedByLib` records whether `upload_file`
itself opened it from a path string; `closed` whether `close()` has been
called on it. -/
structure FileHandle where
  name : String
  openedByLib : Bool
  closed : Bool
deriving DecidableEq

/-- An outbound call to `auth.send_request`, recording exactly the
arguments the client passed; omitted keyword arguments are `none`. -/
structure Request where
  url : Val
  method : String
  skip_auth : Option Bool
  data : Option Val
  params : Option Val
  headers : Option Val
  files : Option (List (String × FileHandle))

/-- The network boundary: what `send_request` answers for a request. -/
abbrev Oracle := Request → Except Err Val

def BASE_URL : String := "https://api.pushbullet.com/v2"
def CONTACTS_URL : String := BASE_URL ++ "/contacts"
def DEVICE_URL : String := BASE_URL ++ "/devices"
def ME_URL : String := BASE_URL ++ "/users/me"
def PUSH_URL : String := BASE_URL ++ "/pushes"
def UPLOAD_URL : String := BASE_URL ++ "/upload-request"

/-- `send_request(url, 'GET')` -/
def reqGET (url : String) : Request :=
  ⟨Val.str url, "GET", none, none, none, none, none⟩

/-- `send_request(url, 'DELETE')` -/
def reqDELETE (url : String) : Request :=
  ⟨Val.str url, "DELETE", none, none, none, none, none⟩

/-- `send_request(url, 'POST', data = d)` -/
def reqPOSTdata (url : String) (d : Val) : Request :=
  ⟨Val.str url, "POST", none, some d, none, none, none⟩

/-- `send_request(url, 'GET', params = p)` -/
def reqGETparams (url : String) (p : Val) : Request :=
  ⟨Val.str url, "GET", none, none, some p, none, none⟩

/-- `send_request(url, 'POST', headers = h, data = d)` -/
def reqPOSTheaders (url : String) (h d : Val) : Request :=
  ⟨Val.str url, "POST", none, some d, none, some h, none⟩

/-- The environment `Client.__init__` reads: whether the global settings
file `~/.pybulletrc` exists, and its JSON contents when it does. -/
structure Env where
  globalExists : Bool
  globalContent : Dict

/-- The authenticator selected at construction, holding the `auth`
sub-mapping it was built from. -/
inductive Authenticator where
  | basic : Val → Authenticator
  | oauth : Val → Authenticator

/-- The state a successfully constructed client holds. -/
structure ClientState where
  settings : Dict
  auth : Authenticator

/-- Python truthiness of the `settings` argument (`not settings` is true
for `None` and for an empty dictionary). -/
def truthy : Option Dict → Bool
  | none => false
  | some d => !d.isEmpty

/-- The merged `self.settings` that `Client.__init__` builds: the global
file contents when the file exists, updated shallowly (`dict.update`) by
a truthy override. -/
def mergedSettings (env : Env) (settings : Option Dict) : Dict :=
  let base := if env.globalExists then env.globalContent else []
  match settings with
  | none => base
  | some d => if d.isEmpty then base else updateDict base d

/-- `Client.__init__(settings)` with a dictionary (or absent) `settings`
argument.  The first component is the trace of outbound requests the
constructor makes: it is always `[]`, construction performs no network
activity. -/
def clientInit (env : Env) (settings : Option Dict) :
    List Request × Except Err ClientState :=
  if !env.globalExists && !(truthy settings) then
    ([], Except.error (Err.exception "No settings given"))
  else
    let merged := mergedSettings env settings
    match dlookup merged "auth" with
    | none => ([], Except.error (Err.keyError "auth"))
    | some auth_settings =>
      match getItem auth_settings "type" with
      | Except.error e => ([], Except.error e)
      | Except.ok (Val.str s) =>
        if s = "basic" then
          ([], Except.ok ⟨merged, Authenticator.basic auth_settings⟩)
        else if s = "oauth" then
          ([], Except.ok ⟨merged, Authenticator.oauth auth_settings⟩)
        else
          ([], Except.error (Err.exception
            "Invalid authentication scheme given. Must be basic or oauth"))
      | Except.ok _ =>
          ([], Except.error (Err.exception
            "Invalid authentication scheme given. Must be basic or oauth"))

/-! ## Client methods

Each method returns the trace of outbound `send_request` calls it made
(including a final attempt that raised) and its result. -/

/-- `Client.devices()` -/
def devices (oracle : Oracle) : List Request × Except Err Val :=
  match oracle (reqGET DEVICE_URL) with
  | Except.error e => ([reqGET DEVICE_URL], Except.error e)
  | Except.ok resp => ([reqGET DEVICE_URL], getItem resp "devices")

/-- `Client.create_device(name, device_type)` -/
def create_device (oracle : Oracle) (name device_type : String) :
    List Request × Except Err Val :=
  let req := reqPOSTdata DEVICE_URL
    (Val.dict [("type", Val.str device_type), ("nickname", Val.str name)])
  ([req], oracle req)

/-- `Client.update_device(device_iden, **kwargs)` -/
def update_device (oracle : Oracle) (device_iden : String) (kwargs : Dict) :
    List Request × Except Err Val :=
  let req := reqPOSTdata (DEVICE_URL ++ "/" ++ device_iden) (Val.dict kwargs)
  ([req], oracle req)

/-- `Client.delete_device(device_iden)`: the response is discarded and
the method returns `None`. -/
def delete_device (oracle : Oracle) (device_iden : String) :
    List Request × Except Err Val :=
  let req := reqDELETE (DEVICE_URL ++ "/" ++ device_iden)
  match oracle req with
  | Except.error e => ([req], Except.error e)
  | Except.ok _ => ([req], Except.ok Val.pyNone)

/-- `Client.push(push_type, **kwargs)`: sets `kwargs['type'] = push_type`
and POSTs `kwargs` to the push endpoint. -/
def push (oracle : Oracle) (push_type : String) (kwargs : Dict) :
    List Request × Except Err Val :=
  let req := reqPOSTdata PUSH_URL (Val.dict (setKey kwargs "type" (Val.str push_type)))
  ([req], oracle req)

/-- `Client.push_history(modified_timestamp)` -/
def push_history (oracle : Oracle) (modified_timestamp : Val) :
    List Request × Except Err Val :=
  let req := reqGETparams PUSH_URL (Val.dict [("modified_after", modified_timestamp)])
  match oracle req with
  | Except.error e => ([req], Except.error e)
  | Except.ok resp => ([req], getItem resp "pushes")

/-- `Client.dismiss_push(push_iden)` -/
def dismiss_push (oracle : Oracle) (push_iden : String) :
    List Request × Except Err Val :=
  let req := reqPOSTdata (PUSH_URL ++ "/" ++ push_iden)
    (Val.dict [("dismissed", Val.str "true")])
  ([req], oracle req)

/-- `Client.delete_push(push_iden)`: the response is discarded and the
method returns `None`. -/
def delete_push (oracle : Oracle) (push_iden : String) :
    List Request × Except Err Val :=
  let req := reqDELETE (PUSH_URL ++ "/" ++ push_iden)
  match oracle req with
  | Except.error e => ([req], Except.error e)
  | Except.ok _ => ([req], Except.ok Val.pyNone)

/-- `Client.contacts()` -/
def contacts (oracle : Oracle) : List Request × Except Err Val :=
  ([reqGET CONTACTS_URL], oracle (reqGET CONTACTS_URL))

/-- `Client.create_contact(name, email)` -/
def create_contact (oracle : Oracle) (name email : String) :
    List Request × Except Err Val :=
  let req := reqPOSTdata CONTACTS_URL
    (Val.dict [("name", Val.str name), ("email", Val.str email)])
  ([req], oracle req)

/-- `Client.update_contact(contact_iden, **kwargs)` -/
def update_contact (oracle : Oracle) (contact_iden : String) (kwargs : Dict) :
    List Request × Except Err Val :=
  let req := reqPOSTdata (CONTACTS_URL ++ "/" ++ contact_iden) (Val.dict kwargs)
  ([req], oracle req)

/-- `Client.delete_contact(contact_iden)`: the response is discarded and
the method returns `None`. -/
def delete_contact (oracle : Oracle) (contact_iden : String) :
    List Request × Except Err Val :=
  let req := reqDELETE (CONTACTS_URL ++ "/" ++ contact_iden)
  match oracle req with
  | Except.error e => ([req], Except.error e)
  | Except.ok _ => ([req], Except.ok Val.pyNone)

/-- `Client.me()` -/
def me (oracle : Oracle) : List Request × Except Err Val :=
  ([reqGET ME_URL], oracle (reqGET ME_URL))

/-- `Client.update_me(**kwargs)`; `dumps` stands for the standard
library serializer `json.dumps`. -/
def update_me (oracle : Oracle) (dumps : Dict → String) (kwargs : Dict) :
    List Request × Except Err Val :=
  let req := reqPOSTheaders ME_URL
    (Val.dict [("content-type", Val.str "application/json")])
    (Val.str (dumps kwargs))
  ([req], oracle req)

/-! ## `upload_file` -/

/-- `open(inputfile, 'rb')` on a path string: a fresh library-opened
handle whose `.name` is the path. -/
def openFile (p : String) : FileHandle := ⟨p, true, false⟩

/-- The file handle `upload_file` works with: opened by the library when
`inputfile` is a path string, the caller's handle otherwise. -/
def fhOf : String ⊕ FileHandle → FileHandle
  | Sum.inl p => openFile p
  | Sum.inr h => h

/-- Python `a or b` on an optional string (`None` and `""` are falsy). -/
def strOr : Option String → String → String
  | none, b => b
  | some s, b => if s = "" then b else s

/-- The `(type, encoding)` pair returned by `mimetypes.guess_type`,
embedded as a Python tuple value. -/
def tupleOf (g : Option String × Option String) : Val :=
  Val.tuple [(match g.1 with | none => Val.pyNone | some s => Val.str s),
             (match g.2 with | none => Val.pyNone | some s => Val.str s)]

/-- `file_type or mimetypes.guess_type(name)`: a truthy `file_type`
wins, otherwise the whole guessed pair is used. -/
def mimeOr : Option String → (Option String × Option String) → Val
  | none, g => tupleOf g
  | some s, g => if s = "" then tupleOf g else Val.str s

/-- `name = filename or file_handle.name` -/
def uploadName (inputfile : String ⊕ FileHandle) (filename : Option String) : String :=
  strOr filename (fhOf inputfile).name

/-- `mime_type = file_type or mimetypes.guess_type(name)`; `guess`
stands for the standard library `mimetypes.guess_type`. -/
def uploadMime (guess : String → Option String × Option String)
    (inputfile : String ⊕ FileHandle) (filename file_type : Option String) : Val :=
  mimeOr file_type (guess (uploadName inputfile filename))

/-- Phase A: the authenticated upload-request call, with payload
`(file_name, file_type)`. -/
def phaseA_request (name : String) (mime : Val) : Request :=
  reqPOSTdata UPLOAD_URL (Val.dict [("file_name", Val.str name), ("file_type", mime)])

/-- Phase B: the `skip_auth=True` POST to the ticket's `upload_url`,
with body `resp['data']` and the stream attached under field `'file'`. -/
def phaseB_request (upload_url dataf : Val) (fh : FileHandle) : Request :=
  ⟨upload_url, "POST", some true, some dataf, none, none, some [("file", fh)]⟩

/-- `Client.upload_file(inputfile, filename, file_type)`.  The last
component is the final state of the file handle; the source contains no
`close()` call, so the handle passes through unchanged on every path. -/
def upload_file (oracle : Oracle) (guess : String → Option String × Option String)
    (inputfile : String ⊕ FileHandle) (filename file_type : Option String) :
    List Request × Except Err Val × FileHandle :=
  let fh := fhOf inputfile
  let reqA := phaseA_request (uploadName inputfile filename)
    (uploadMime guess inputfile filename file_type)
  match oracle reqA with
  | Except.error e => ([reqA], Except.error e, fh)
  | Except.ok resp =>
    match getItem resp "upload_url" with
    | Except.error e => ([reqA], Except.error e, fh)
    | Except.ok upload_url =>
      match getItem resp "data" with
      | Except.error e => ([reqA], Except.error e, fh)
      | Except.ok dataf =>
        match oracle (phaseB_request upload_url dataf fh) with
        | Except.error e => ([reqA, phaseB_request upload_url dataf fh], Except.error e, fh)
        | Except.ok _ => ([reqA, phaseB_request upload_url dataf fh], Except.ok resp, fh)

/-! ## Example data used by concrete evaluations -/

/-- The base settings of the spec's merge example. -/
def exBase : Dict :=
  [("auth", Val.dict [("type", Val.str "basic"), ("token", Val.str "A")]),
   ("x", Val.int 1)]

/-- The override of the spec's merge example. -/
def exOvr : Dict := [("auth", Val.dict [("token", Val.str "B")])]

/-- An environment whose global settings file holds `exBase`. -/
def exEnv : Env := ⟨true, exBase⟩

/-- An environment with a well-formed basic-auth global file. -/
def exEnvBasic : Env :=
  ⟨true, [("auth", Val.dict [("type", Val.str "basic"), ("token", Val.str "A")]),
          ("x", Val.int 1)]⟩

/-- A phase-A ticket response carrying an upload URL and form data. -/
def exResp : Val :=
  Val.dict [("upload_url", Val.str "https://upload.example/abc"),
            ("data", Val.dict [("key", Val.str "v")])]

/-- An oracle on which both upload phases succeed: phase B (the only
`skip_auth=True` call) gets an empty answer, everything else gets the
ticket `exResp`. -/
def exOracle : Oracle := fun r =>
  if r.skip_auth = some true then Except.ok Val.pyNone else Except.ok exResp

/-- An oracle on which every request fails. -/
def errOracle : Oracle := fun _ => Except.error (Err.requestError 1)

/-- An oracle on which phase A succeeds and phase B (the only
`skip_auth=True` call) fails. -/
def phaseBFailOracle : Oracle := fun r =>
  if r.skip_auth = some true then Except.error (Err.requestError 2)
  else Except.ok exResp

/-- A MIME guesser that always answers `("text/plain", None)`. -/
def exGuess : String → Option String × Option String :=
  fun _ => (some "text/plain", none)

/-! ## Dictionary lemmas -/

theorem dlookup_setKey_self (d : Dict) (k : String) (v : Val) :
    dlookup (setKey d k v) k = some v := by
  induction d with
  | nil => simp [setKey, dlookup]
  | cons p rest ih =>
    obtain ⟨k', v'⟩ := p
    by_cases h : k' = k
    · simp [setKey, h, dlookup]
    · simp [setKey, h, dlookup, ih]

theorem dlookup_setKey_ne (d : Dict) (k k0 : String) (v : Val) (h : k0 ≠ k) :
    dlookup (setKey d k v) k0 = dlookup d k0 := by
  induction d with
  | nil => simp [setKey, dlookup, Ne.symm h]
  | cons p rest ih =>
    obtain ⟨k', v'⟩ := p
    by_cases hk : k' = k
    · subst hk
      simp [setKey, dlookup, Ne.symm h]
    · simp [setKey, hk, dlookup, ih]

theorem updateDict_cons (base : Dict) (k : String) (v : Val) (rest : Dict) :
    updateDict base ((k, v) :: rest) = updateDict (setKey base k v) rest := rfl

theorem dlookup_updateDict_none (base ovr : Dict) (k : String)
    (h : dlookup ovr k = none) :
    dlookup (updateDict base ovr) k = dlookup base k := by
  induction ovr generalizing base with
  | nil => rfl
  | cons p rest ih =>
    obtain ⟨k1, v1⟩ := p
    rw [updateDict_cons]
    have hk : ¬ k1 = k := by
      intro e
      rw [dlookup, if_pos e] at h
      cases h
    rw [dlookup, if_neg hk] at h
    rw [ih _ h, dlookup_setKey_ne]
    exact fun e => hk e.symm

theorem dlookup_eq_none_of_not_mem (d : Dict) (k : String)
    (h : k ∉ d.map Prod.fst) : dlookup d k = none := by
  induction d with
  | nil => rfl
  | cons p rest ih =>
    obtain ⟨k1, v1⟩ := p
    rw [List.map_cons, List.mem_cons] at h
    push_neg at h
    rw [dlookup, if_neg (fun e => h.1 e.symm)]
    exact ih h.2

theorem dlookup_updateDict_some (base ovr : Dict) (k : String) (v : Val)
    (hnd : (ovr.map Prod.fst).Nodup) (h : dlookup ovr k = some v) :
    dlookup (updateDict base ovr) k = some v := by
  induction ovr generalizing base with
  | nil => cases h
  | cons p rest ih =>
    obtain ⟨k1, v1⟩ := p
    rw [updateDict_cons]
    rw [List.map_cons, List.nodup_cons] at hnd
    by_cases hk : k1 = k
    · subst hk
      rw [dlookup, if_pos rfl] at h
      cases h
      rw [dlookup_updateDict_none _ _ _ (dlookup_eq_none_of_not_mem _ _ hnd.1),
        dlookup_setKey_self]
    · rw [dlookup, if_neg hk] at h
      exact ih _ hnd.2 h

/-- `getItem` only raises `KeyError` or `TypeError`, never a plain
`Exception` message. -/
theorem getItem_no_exception (v : Val) (k msg : String) :
    getItem v k ≠ Except.error (Err.exception msg) := by
  cases v <;> simp [getItem]
  case dict d =>
    cases dlookup d k <;> simp

/-! ## Claims -/

/-- Claim C1, counterexample.  On the spec's own merge example —
base `exBase` (auth has `type` and `token`) overridden by `exOvr`
(auth has only `token`) — `dict.update` replaces the `auth` mapping
wholesale: the merged `auth` is exactly the singleton `token = B`, the
base's `auth.type` is NOT preserved, and construction consequently
raises `KeyError("type")` instead of building a basic authenticator. -/
theorem c1_counterexample :
    clientInit exEnv (some exOvr) = ([], Except.error (Err.keyError "type")) ∧
    dlookup (mergedSettings exEnv (some exOvr)) "auth"
      = some (Val.dict [("token", Val.str "B")]) ∧
    dlookup (mergedSettings exEnv (some exOvr)) "x" = some (Val.int 1) :=
  ⟨rfl, rfl, rfl⟩

/-- Claim C1, amended.  Client construction merges the override over the
base right-biased and SHALLOW at the top level only: every top-level
override key (the `auth` mapping included) replaces or adds to the base
wholesale, keys absent from the override keep their base value, and the
resulting mapping is exactly what a successfully constructed client
stores as its settings.  There is no key-wise merge inside `auth`. -/
theorem c1_shallow_merge (env : Env) (ovr : Dict)
    (hnd : (ovr.map Prod.fst).Nodup) :
    (∀ st, (clientInit env (some ovr)).2 = Except.ok st →
      st.settings = mergedSettings env (some ovr)) ∧
    (∀ k v, dlookup ovr k = some v →
      dlookup (mergedSettings env (some ovr)) k = some v) ∧
    (∀ k, dlookup ovr k = none →
      dlookup (mergedSettings env (some ovr)) k =
        dlookup (if env.globalExists then env.globalContent else []) k) := by
  refine ⟨?_, ?_, ?_⟩
  · intro st h
    simp only [clientInit] at h
    split at h
    · simp at h
    · split at h
      · simp at h
      · split at h
        · simp at h
        · split at h
          · simp at h
            subst h
            rfl
          · split at h
            · simp at h
              subst h
              rfl
            · simp at h
        · simp at h
  · intro k v h
    simp only [mergedSettings]
    split
    · rcases ovr with _ | ⟨p, rest⟩
      · cases h
      · simp_all [List.isEmpty]
    · exact dlookup_updateDict_some _ _ _ _ hnd h
  · intro k h
    simp only [mergedSettings]
    split
    · rcases ovr with _ | ⟨p, rest⟩ <;> rfl
    · exact dlookup_updateDict_none _ _ _ h

/-- Witness for `c1_shallow_merge` at a concrete input: overriding
`exEnvBasic`'s settings with the single binding `y = 2` keeps the base
binding `x = 1` and adds `y = 2`. -/
theorem c1_shallow_merge_witness :
    dlookup (mergedSettings exEnvBasic (some [("y", Val.int 2)])) "y"
      = some (Val.int 2) ∧
    dlookup (mergedSettings exEnvBasic (some [("y", Val.int 2)])) "x"
      = some (Val.int 1) :=
  ⟨(c1_shallow_merge exEnvBasic [("y", Val.int 2)] (by simp)).2.1 "y"
      (Val.int 2) rfl,
   ((c1_shallow_merge exEnvBasic [("y", Val.int 2)] (by simp)).2.2 "x"
      rfl).trans rfl⟩

/-- Claim C5.  `push(push_type, **kwargs)` makes exactly one outbound
call, a POST to the push endpoint; its payload binds `type` to the given
`push_type` and leaves every other key exactly as in `kwargs`. -/
theorem c5_push_single_call (oracle : Oracle) (push_type : String) (kwargs : Dict) :
    (push oracle push_type kwargs).1 =
      [reqPOSTdata PUSH_URL (Val.dict (setKey kwargs "type" (Val.str push_type)))] ∧
    dlookup (setKey kwargs "type" (Val.str push_type)) "type"
      = some (Val.str push_type) ∧
    (∀ k, k ≠ "type" →
      dlookup (setKey kwargs "type" (Val.str push_type)) k = dlookup kwargs k) ∧
    (push oracle push_type kwargs).2 =
      oracle (reqPOSTdata PUSH_URL (Val.dict (setKey kwargs "type" (Val.str push_type)))) :=
  ⟨rfl, dlookup_setKey_self _ _ _,
   fun k hk => dlookup_setKey_ne _ _ _ _ hk, rfl⟩

/-- Witness for `c5_push_single_call`: a concrete note push keeps its
`title` field untouched. -/
theorem c5_push_single_call_witness :
    dlookup (setKey [("title", Val.str "t"), ("body", Val.str "b")] "type"
      (Val.str "note")) "title" = some (Val.str "t") :=
  (c5_push_single_call (fun _ => Except.ok Val.pyNone) "note"
      [("title", Val.str "t"), ("body", Val.str "b")]).2.2.1 "title" (by decide)

/-- Claim C7, counterexample.  With no global settings file an override
IS supplied — the empty dictionary — yet construction still raises the
`No settings given` error, because the code tests Python truthiness
(`not settings`), under which an empty dict counts as absent. -/
theorem c7_counterexample :
    clientInit ⟨false, []⟩ (some []) =
      ([], Except.error (Err.exception "No settings given")) := rfl

/-- Claim C7, amended.  Construction raises the `No settings given`
error exactly when the global settings file does not exist AND the
supplied override is falsy (absent or the empty dictionary); whenever
the global file exists or a non-empty override is supplied, this error
is not raised (construction may still fail differently, e.g. on a
missing or invalid `auth` entry).  Construction performs no network
activity either way. -/
theorem c7_no_settings_error (env : Env) (s : Option Dict) :
    (clientInit env s).1 = [] ∧
    (env.globalExists = false ∧ truthy s = false →
      (clientInit env s).2 = Except.error (Err.exception "No settings given")) ∧
    (env.globalExists = true ∨ truthy s = true →
      (clientInit env s).2 ≠ Except.error (Err.exception "No settings given")) := by
  refine ⟨?_, ?_, ?_⟩
  · simp only [clientInit]
    split
    · rfl
    · split
      · rfl
      · split
        · rfl
        · split
          · rfl
          · split <;> rfl
        · rfl
  · rintro ⟨h1, h2⟩
    simp [clientInit, h1, h2]
  · intro h
    have hc : (!env.globalExists && !(truthy s)) = false := by
      rcases h with h | h <;> simp [h]
    simp only [clientInit, hc]
    simp only [Bool.false_eq_true, if_false]
    split
    · simp
    · split
      · intro hcon
        simp only [Prod.snd, Except.error.injEq] at hcon
        rename_i e heq
        rw [hcon] at heq
        exact getItem_no_exception _ _ _ heq
      · split
        · simp
        · split
          · simp
          · intro hcon
            simp only [Prod.snd, Except.error.injEq, Err.exception.injEq] at hcon
            exact absurd hcon (by decide)
      · intro hcon
        simp only [Prod.snd, Except.error.injEq, Err.exception.injEq] at hcon
        exact absurd hcon (by decide)

/-- Witness for `c7_no_settings_error`: with no global file and a `None`
override, construction raises the no-settings error and issues no
requests. -/
theorem c7_no_settings_error_witness :
    (clientInit ⟨false, []⟩ none).1 = [] ∧
    (clientInit ⟨false, []⟩ none).2 =
      Except.error (Err.exception "No settings given") :=
  ⟨(c7_no_settings_error ⟨false, []⟩ none).1,
   (c7_no_settings_error ⟨false, []⟩ none).2.1 ⟨rfl, rfl⟩⟩

/-- Claim C6.  Once construction reaches validation (the no-settings
check passed) and the merged settings hold an `auth` mapping whose
`type` subscript succeeds: value `"basic"` builds a
`Authenticator.basic` over that auth mapping, `"oauth"` builds
`Authenticator.oauth`, any other string — and any non-string value —
raises the invalid-scheme configuration error.  In all four cases the
outbound trace is empty: construction attempts no network call. -/
theorem c6_auth_dispatch (env : Env) (s : Option Dict) (as : Val)
    (hns : (!env.globalExists && !(truthy s)) = false)
    (ha : dlookup (mergedSettings env s) "auth" = some as) :
    (getItem as "type" = Except.ok (Val.str "basic") →
      clientInit env s =
        ([], Except.ok ⟨mergedSettings env s, Authenticator.basic as⟩)) ∧
    (getItem as "type" = Except.ok (Val.str "oauth") →
      clientInit env s =
        ([], Except.ok ⟨mergedSettings env s, Authenticator.oauth as⟩)) ∧
    (∀ u, u ≠ "basic" → u ≠ "oauth" →
      getItem as "type" = Except.ok (Val.str u) →
      clientInit env s = ([], Except.error (Err.exception
        "Invalid authentication scheme given. Must be basic or oauth"))) ∧
    (∀ t, (∀ u, t ≠ Val.str u) → getItem as "type" = Except.ok t →
      clientInit env s = ([], Except.error (Err.exception
        "Invalid authentication scheme given. Must be basic or oauth"))) := by
  refine ⟨?_, ?_, ?_, ?_⟩
  · intro ht
    simp [clientInit, hns, ha, ht]
  · intro ht
    simp [clientInit, hns, ha, ht]
  · intro u hb ho ht
    simp [clientInit, hns, ha, ht, hb, ho]
  · intro t hstr ht
    cases t with
    | str u => exact absurd rfl (hstr u)
    | int n => simp [clientInit, hns, ha, ht]
    | dict d => simp [clientInit, hns, ha, ht]
    | list l => simp [clientInit, hns, ha, ht]
    | tuple l => simp [clientInit, hns, ha, ht]
    | pyNone => simp [clientInit, hns, ha, ht]

/-- Witness for `c6_auth_dispatch`: `exEnvBasic` has `auth.type` equal
to `"basic"`, so construction succeeds with a basic authenticator and an
empty outbound trace. -/
theorem c6_auth_dispatch_witness :
    clientInit exEnvBasic none =
      ([], Except.ok ⟨exEnvBasic.globalContent,
        Authenticator.basic
          (Val.dict [("type", Val.str "basic"), ("token", Val.str "A")])⟩) :=
  (c6_auth_dispatch exEnvBasic none
    (Val.dict [("type", Val.str "basic"), ("token", Val.str "A")])
    rfl rfl).1 rfl

/-- Whatever the oracle answers, the first outbound call `upload_file`
makes is the phase-A upload-request POST. -/
theorem upload_file_head (oracle : Oracle)
    (guess : String → Option String × Option String)
    (inputfile : String ⊕ FileHandle) (filename file_type : Option String) :
    (upload_file oracle guess inputfile filename file_type).1.head? =
      some (phaseA_request (uploadName inputfile filename)
        (uploadMime guess inputfile filename file_type)) := by
  simp only [upload_file]
  split
  · rfl
  · split
    · rfl
    · split
      · rfl
      · split
        · rfl
        · rfl

/-- Claim C2.  A successful `upload_file` issues exactly two outbound
calls: first the upload-request POST, authenticated (no `skip_auth`
argument is passed) with payload `(file_name, file_type)`, then a POST
to the first response's `upload_url` with `skip_auth=True`, body
`resp['data']`, and the stream attached as multipart content under the
fixed field name `file`. -/
theorem c2_upload_two_calls (oracle : Oracle)
    (guess : String → Option String × Option String)
    (inputfile : String ⊕ FileHandle) (filename file_type : Option String)
    (resp u d r2 : Val)
    (hA : oracle (phaseA_request (uploadName inputfile filename)
      (uploadMime guess inputfile filename file_type)) = Except.ok resp)
    (hU : getItem resp "upload_url" = Except.ok u)
    (hD : getItem resp "data" = Except.ok d)
    (hB : oracle (phaseB_request u d (fhOf inputfile)) = Except.ok r2) :
    upload_file oracle guess inputfile filename file_type =
      ([phaseA_request (uploadName inputfile filename)
          (uploadMime guess inputfile filename file_type),
        phaseB_request u d (fhOf inputfile)],
        Except.ok resp, fhOf inputfile) ∧
    (phaseA_request (uploadName inputfile filename)
      (uploadMime guess inputfile filename file_type)).method = "POST" ∧
    (phaseA_request (uploadName inputfile filename)
      (uploadMime guess inputfile filename file_type)).url = Val.str UPLOAD_URL ∧
    (phaseA_request (uploadName inputfile filename)
      (uploadMime guess inputfile filename file_type)).skip_auth = none ∧
    (phaseA_request (uploadName inputfile filename)
      (uploadMime guess inputfile filename file_type)).data =
      some (Val.dict [("file_name", Val.str (uploadName inputfile filename)),
        ("file_type", uploadMime guess inputfile filename file_type)]) ∧
    (phaseB_request u d (fhOf inputfile)).url = u ∧
    (phaseB_request u d (fhOf inputfile)).method = "POST" ∧
    (phaseB_request u d (fhOf inputfile)).skip_auth = some true ∧
    (phaseB_request u d (fhOf inputfile)).data = some d ∧
    (phaseB_request u d (fhOf inputfile)).files =
      some [("file", fhOf inputfile)] := by
  refine ⟨?_, rfl, rfl, rfl, rfl, rfl, rfl, rfl, rfl, rfl⟩
  simp only [upload_file, hA, hU, hD, hB]

/-- Witness for `c2_upload_two_calls`: a concrete upload of the path
`notes.txt` on `exOracle`, where both phases succeed. -/
theorem c2_upload_two_calls_witness :
    upload_file exOracle exGuess (Sum.inl "notes.txt") none none =
      ([phaseA_request "notes.txt" (Val.tuple [Val.str "text/plain", Val.pyNone]),
        phaseB_request (Val.str "https://upload.example/abc")
          (Val.dict [("key", Val.str "v")]) (openFile "notes.txt")],
        Except.ok exResp, openFile "notes.txt") :=
  (c2_upload_two_calls exOracle exGuess (Sum.inl "notes.txt") none none
    exResp (Val.str "https://upload.example/abc")
    (Val.dict [("key", Val.str "v")]) Val.pyNone rfl rfl rfl rfl).1

/-- Claim C4.  When the phase-A call raises, `upload_file` propagates
the error, the outbound trace is the single phase-A request (phase B is
never attempted), and the file handle comes back exactly as it went in:
the model reads the stream nowhere, name and MIME resolution use only
the handle's `.name` attribute. -/
theorem c4_phaseA_failure_aborts (oracle : Oracle)
    (guess : String → Option String × Option String)
    (inputfile : String ⊕ FileHandle) (filename file_type : Option String)
    (e : Err)
    (hA : oracle (phaseA_request (uploadName inputfile filename)
      (uploadMime guess inputfile filename file_type)) = Except.error e) :
    upload_file oracle guess inputfile filename file_type =
      ([phaseA_request (uploadName inputfile filename)
          (uploadMime guess inputfile filename file_type)],
        Except.error e, fhOf inputfile) := by
  simp only [upload_file, hA]

/-- Witness for `c4_phaseA_failure_aborts`: on `errOracle` every
request fails, so the upload stops after a single outbound call. -/
theorem c4_phaseA_failure_aborts_witness :
    upload_file errOracle exGuess (Sum.inl "notes.txt") none none =
      ([phaseA_request "notes.txt" (Val.tuple [Val.str "text/plain", Val.pyNone])],
        Except.error (Err.requestError 1), openFile "notes.txt") :=
  c4_phaseA_failure_aborts errOracle exGuess (Sum.inl "notes.txt") none none
    (Err.requestError 1) rfl

/-- Claim C8.  A successful `upload_file` returns the parsed body of the
phase-A upload-request call (the ticket), not the phase-B response. -/
theorem c8_returns_ticket (oracle : Oracle)
    (guess : String → Option String × Option String)
    (inputfile : String ⊕ FileHandle) (filename file_type : Option String)
    (resp u d r2 : Val)
    (hA : oracle (phaseA_request (uploadName inputfile filename)
      (uploadMime guess inputfile filename file_type)) = Except.ok resp)
    (hU : getItem resp "upload_url" = Except.ok u)
    (hD : getItem resp "data" = Except.ok d)
    (hB : oracle (phaseB_request u d (fhOf inputfile)) = Except.ok r2) :
    (upload_file oracle guess inputfile filename file_type).2.1 =
      Except.ok resp := by
  simp only [upload_file, hA, hU, hD, hB]

/-- Witness for `c8_returns_ticket`: on `exOracle` the phase-B answer is
`Val.pyNone`, yet the caller receives the phase-A ticket `exResp`. -/
theorem c8_returns_ticket_witness :
    (upload_file exOracle exGuess (Sum.inl "notes.txt") none none).2.1 =
      Except.ok exResp :=
  c8_returns_ticket exOracle exGuess (Sum.inl "notes.txt") none none
    exResp (Val.str "https://upload.example/abc")
    (Val.dict [("key", Val.str "v")]) Val.pyNone rfl rfl rfl rfl

/-- Claim C9.  With no explicit `file_type` argument, the phase-A
payload's `file_type` field is the whole `(type, encoding)` pair
returned by MIME guessing, embedded as a tuple — never a plain string. -/
theorem c9_mime_pair (oracle : Oracle)
    (guess : String → Option String × Option String)
    (inputfile : String ⊕ FileHandle) (filename : Option String) :
    (upload_file oracle guess inputfile filename none).1.head? =
      some (phaseA_request (uploadName inputfile filename)
        (tupleOf (guess (uploadName inputfile filename)))) ∧
    (∀ s, tupleOf (guess (uploadName inputfile filename)) ≠ Val.str s) := by
  refine ⟨upload_file_head oracle guess inputfile filename none, ?_⟩
  intro s h
  exact Val.noConfusion h

/-- Witness for `c9_mime_pair`: uploading `notes.txt` with no explicit
file type sends the full guessed pair `("text/plain", None)`. -/
theorem c9_mime_pair_witness :
    (upload_file exOracle exGuess (Sum.inl "notes.txt") none none).1.head? =
      some (phaseA_request "notes.txt"
        (Val.tuple [Val.str "text/plain", Val.pyNone])) :=
  (c9_mime_pair exOracle exGuess (Sum.inl "notes.txt") none).1

/-- Claim C3 (code bug).  `upload_file` contains no `close()` call at
all: even for a stream the library itself opened from a path string, the
handle comes back with `closed = false` on the success path, on phase-A
failure and on phase-B failure alike (the claimed guarantee that a
library-opened stream is closed on every exit path does not hold). -/
theorem c3_stream_never_closed :
    ((upload_file exOracle exGuess (Sum.inl "/tmp/f.txt") none none).2.1 =
        Except.ok exResp ∧
      (upload_file exOracle exGuess (Sum.inl "/tmp/f.txt") none none).2.2 =
        ⟨"/tmp/f.txt", true, false⟩) ∧
    (upload_file errOracle exGuess (Sum.inl "/tmp/f.txt") none none).2.2 =
      ⟨"/tmp/f.txt", true, false⟩ ∧
    (upload_file phaseBFailOracle exGuess (Sum.inl "/tmp/f.txt") none none).2.2 =
      ⟨"/tmp/f.txt", true, false⟩ :=
  ⟨⟨rfl, rfl⟩, rfl, rfl⟩

/-- Claim C10.  On any successful response, the three delete operations
issue their DELETE request, discard the parsed response and return
`None`, while every other domain method's result is derived from the
parsed response (the full body, or a field extracted from it). -/
theorem c10_delete_returns_none (resp ts : Val)
    (device_iden push_iden contact_iden name device_type email ptype : String)
    (dkw ckw mkw pkw : Dict) (dumps : Dict → String) :
    delete_device (fun _ => Except.ok resp) device_iden =
      ([reqDELETE (DEVICE_URL ++ "/" ++ device_iden)], Except.ok Val.pyNone) ∧
    delete_push (fun _ => Except.ok resp) push_iden =
      ([reqDELETE (PUSH_URL ++ "/" ++ push_iden)], Except.ok Val.pyNone) ∧
    delete_contact (fun _ => Except.ok resp) contact_iden =
      ([reqDELETE (CONTACTS_URL ++ "/" ++ contact_iden)], Except.ok Val.pyNone) ∧
    (devices (fun _ => Except.ok resp)).2 = getItem resp "devices" ∧
    (create_device (fun _ => Except.ok resp) name device_type).2 =
      Except.ok resp ∧
    (update_device (fun _ => Except.ok resp) device_iden dkw).2 =
      Except.ok resp ∧
    (push (fun _ => Except.ok resp) ptype pkw).2 = Except.ok resp ∧
    (push_history (fun _ => Except.ok resp) ts).2 = getItem resp "pushes" ∧
    (dismiss_push (fun _ => Except.ok resp) push_iden).2 = Except.ok resp ∧
    (contacts (fun _ => Except.ok resp)).2 = Except.ok resp ∧
    (create_contact (fun _ => Except.ok resp) name email).2 = Except.ok resp ∧
    (update_contact (fun _ => Except.ok resp) contact_iden ckw).2 =
      Except.ok resp ∧
    (me (fun _ => Except.ok resp)).2 = Except.ok resp ∧
    (update_me (fun _ => Except.ok resp) dumps mkw).2 = Except.ok resp :=
  ⟨rfl, rfl, rfl, rfl, rfl, rfl, rfl, rfl, rfl, rfl, rfl, rfl, rfl, rfl⟩
